import Mathlib

/-!
Verification development for flang's constant folder of logical-valued
expressions (`lib/Evaluate/fold-logical.cpp`).  The folder's own control flow
is embedded directly from the source; the per-kind scalar numeric primitives
(software floating point, integer conversions, bit test) live outside this
file's repository slice and are modelled from the specification, as noted on
each such definition.
-/

namespace FoldLogical

/-- Rounding modes used by OUT_OF_RANGE (`common::RoundingMode` subset). -/
inductive RoundingMode where
  | toZero
  | tiesAwayFromZero
deriving DecidableEq, Repr

/-- Model of a scalar software floating-point value (`Scalar<Real>`): a
finite value is an exact rational; non-finite values are infinities and NaN. -/
inductive FPValue where
  | finite (q : ℚ)
  | inf (negative : Bool)
  | nan
deriving DecidableEq, Repr

/-- IsFinite classification of a real scalar. -/
def FPValue.IsFinite : FPValue → Bool
  | .finite _ => true
  | _ => false

/-- IsNotANumber classification of a real scalar. -/
def FPValue.IsNotANumber : FPValue → Bool
  | .nan => true
  | _ => false

/-- IsNegative classification of a real scalar (sign of a NaN is not
observable in the folds modelled here; take false). -/
def FPValue.IsNegative : FPValue → Bool
  | .finite q => decide (q < 0)
  | .inf negative => negative
  | .nan => false

/-- Truncation toward zero of a rational. -/
def truncTowardZero (q : ℚ) : ℤ :=
  if 0 ≤ q then ⌊q⌋ else ⌈q⌉

/-- Rounding to nearest with ties away from zero. -/
def roundTiesAway (q : ℚ) : ℤ :=
  if 0 ≤ q then ⌊q + 1 / 2⌋ else ⌈q - 1 / 2⌉

/-- Apply a rounding mode to a rational. -/
def roundToInt : RoundingMode → ℚ → ℤ
  | .toZero, q => truncTowardZero q
  | .tiesAwayFromZero, q => roundTiesAway q

/-- Smallest value of a signed two's-complement integer kind of the given
bit width. -/
def intKindMin (bits : Nat) : ℤ := -(2 ^ (bits - 1))

/-- Largest value of a signed two's-complement integer kind of the given
bit width. -/
def intKindMax (bits : Nat) : ℤ := 2 ^ (bits - 1) - 1

/-- Signed (two's-complement) reading of a bit pattern of the given width. -/
def toSigned (bits : Nat) (v : Nat) : ℤ :=
  let r := v % 2 ^ bits
  if r < 2 ^ (bits - 1) then (r : ℤ) else (r : ℤ) - 2 ^ bits

/-- Modelled from the spec: overflow flag of the real→integer conversion
`Scalar<Real>::ToInteger(roundingMode)` (external primitive, real.h): the
element is rounded per the mode and overflows iff the rounded value lies
outside the target kind's signed range; non-finite inputs flag. -/
def ToIntegerOverflow (mode : RoundingMode) (bits : Nat) : FPValue → Bool
  | .finite q =>
      let n := roundToInt mode q
      decide (n < intKindMin bits ∨ intKindMax bits < n)
  | _ => true

/-- Modelled from the spec: overflow flag of the real→real conversion
`Scalar<Real>::Convert` (external primitive): a finite value overflows iff
its magnitude exceeds the target kind's largest finite value; infinities and
NaN convert without overflow. -/
def ConvertRealOverflow (maxFinite : ℚ) : FPValue → Bool
  | .finite q => decide (maxFinite < |q|)
  | _ => false

/-- Modelled from the spec: overflow flag of the integer→real conversion
`Scalar<Real>::FromInteger` (external primitive): overflows iff the integer's
magnitude exceeds the target kind's largest finite value. -/
def FromIntegerOverflow (maxFinite : ℚ) (n : ℤ) : Bool :=
  decide (maxFinite < |(n : ℚ)|)

/-- Modelled from the spec: overflow flag of the signed integer→integer
conversion `Scalar<Integer>::ConvertSigned` (external primitive): overflows
iff the signed source value lies outside the target kind's range. -/
def ConvertSignedOverflow (targetBits : Nat) (sourceBits : Nat) (v : Nat) : Bool :=
  let n := toSigned sourceBits v
  decide (n < intKindMin targetBits ∨ intKindMax targetBits < n)

/-! ## OUT_OF_RANGE (fold-logical.cpp, `name == "out_of_range"`) -/

/-- The folded first (source) argument of OUT_OF_RANGE as the fold sees it:
either not a compile-time constant, or a constant of integer, real, or some
other category. -/
inductive SourceArg where
  | nonConstant
  | intConst (bits : Nat) (vals : List Nat)
  | realConst (vals : List FPValue)
  | otherConst
deriving DecidableEq, Repr

/-- The MOLD argument: only its category and kind matter (a mold is never
evaluated); a real kind is characterised here by its largest finite value. -/
inductive MoldArg where
  | intMold (bits : Nat)
  | realMold (maxFinite : ℚ)
  | otherMold
deriving DecidableEq, Repr

/-- The optional third (ROUND) argument: absent, a logical constant, or
present but not a compile-time constant. -/
inductive RoundArg where
  | absent
  | nonConstant
  | constant (b : Bool)
deriving DecidableEq, Repr

/-- Outcome of the OUT_OF_RANGE rule: a folded constant logical array with
its extents, or the call returned unevaluated. -/
inductive OutOfRangeOutcome where
  | folded (vals : List Bool) (extents : List Nat)
  | unevaluated
deriving DecidableEq, Repr

/-- Element rule for an integer source and a real mold (fold-logical.cpp
lines 242-258): the FromInteger conversion's overflow flag. -/
def OutOfRangeElementIntToReal (maxFinite : ℚ) (bits : Nat) (v : Nat) : Bool :=
  FromIntegerOverflow maxFinite (toSigned bits v)

/-- Element rule for a real source and a real mold (fold-logical.cpp lines
259-276): finite AND the Convert overflow flag. -/
def OutOfRangeElementRealToReal (maxFinite : ℚ) (x : FPValue) : Bool :=
  x.IsFinite && ConvertRealOverflow maxFinite x

/-- Element rule for a real source and an integer mold (fold-logical.cpp
lines 299-331): non-finite, OR the rounding conversion's overflow flag. -/
def OutOfRangeElementRealToInt (mode : RoundingMode) (bits : Nat) (x : FPValue) : Bool :=
  !x.IsFinite || ToIntegerOverflow mode bits x

/-- The per-element results of OUT_OF_RANGE, when any (`result` in the
source, fold-logical.cpp lines 240-334): dispatch on mold category first
(real mold lines 241-276, integer mold lines 277-334), then on the folded
source's category; on the integer-mold path a present-but-non-constant ROUND
argument withholds folding of a non-integer source (lines 294-298). -/
def OutOfRangeValues (source : SourceArg) (mold : MoldArg) (round : RoundArg) :
    Option (List Bool) :=
  match mold with
  | .realMold maxFinite =>
      match source with
      | .intConst bits vals => some (vals.map (OutOfRangeElementIntToReal maxFinite bits))
      | .realConst vals => some (vals.map (OutOfRangeElementRealToReal maxFinite))
      | _ => none
  | .intMold bits =>
      match source with
      | .intConst sourceBits vals => some (vals.map (ConvertSignedOverflow bits sourceBits))
      | .realConst vals =>
          match round with
          | .nonConstant => none
          | .constant true => some (vals.map (OutOfRangeElementRealToInt .tiesAwayFromZero bits))
          | _ => some (vals.map (OutOfRangeElementRealToInt .toZero bits))
      | _ => none
  | .otherMold => none

/-- The OUT_OF_RANGE rule (fold-logical.cpp lines 234-342): a non-constant
folded source leaves the call unevaluated; otherwise, when element results
were produced AND the constant extents of the folded source are obtainable
(`GetConstantExtents`, external, modelled as the `extents` input), a constant
logical array is emitted; any other path leaves the call unevaluated. -/
def OutOfRange (source : SourceArg) (mold : MoldArg) (round : RoundArg)
    (extents : Option (List Nat)) : OutOfRangeOutcome :=
  match source with
  | .nonConstant => .unevaluated
  | _ =>
      match OutOfRangeValues source mold round with
      | some vals =>
          match extents with
          | some e => .folded vals e
          | none => .unevaluated
      | none => .unevaluated

/-! ## Relational folding (fold-logical.cpp, `FoldOperation(Relational<T>)`) -/

/-- Fortran relational operators. -/
inductive RelationalOperator where
  | lt
  | le
  | eq
  | ne
  | ge
  | gt
deriving DecidableEq, Repr

/-- Result of a possibly-unordered comparison (`common::Relation`). -/
inductive Relation where
  | less
  | equal
  | greater
  | unordered
deriving DecidableEq, Repr

/-- Modelled from the spec: `Satisfies(RelationalOperator, Relation)`
(external, Evaluate/common.h): an unordered comparison satisfies only NE;
ordered outcomes satisfy the operators consistent with them. -/
def Satisfies (op : RelationalOperator) : Relation → Bool
  | .less => decide (op = .lt ∨ op = .le ∨ op = .ne)
  | .equal => decide (op = .le ∨ op = .eq ∨ op = .ge)
  | .greater => decide (op = .ne ∨ op = .ge ∨ op = .gt)
  | .unordered => decide (op = .ne)

/-- Modelled from the spec: the IEEE ordered compare `Scalar<Real>::Compare`
(external primitive, real.h): any comparison with a NaN operand is
unordered; otherwise values compare by magnitude with signed infinities at
the extremes. -/
def FPValue.Compare : FPValue → FPValue → Relation
  | .nan, _ => .unordered
  | _, .nan => .unordered
  | .inf n1, .inf n2 => if n1 = n2 then .equal else if n1 then .less else .greater
  | .inf n1, .finite _ => if n1 then .less else .greater
  | .finite _, .inf n2 => if n2 then .greater else .less
  | .finite a, .finite b => if a < b then .less else if b < a then .greater else .equal

/-- Outcome of folding a scalar operation node: a constant, or the node
returned unevaluated. -/
inductive ScalarFoldOutcome where
  | folded (value : Bool)
  | unevaluated
deriving DecidableEq, Repr

/-- The Relational folder on real operands (fold-logical.cpp lines 385-402,
Real category arm, line 391): when both operands are scalar constants the
result is `Satisfies(opr, x.Compare(y))`; otherwise the node is returned
unevaluated. -/
def FoldRelationalReal (op : RelationalOperator) (x y : Option FPValue) :
    ScalarFoldOutcome :=
  match x, y with
  | some a, some b => .folded (Satisfies op (a.Compare b))
  | _, _ => .unevaluated

/-! ## Logical operations (fold-logical.cpp, `FoldOperation(LogicalOperation)`) -/

/-- Fortran logical operators (`LogicalOperator`), including the unary Not
which the binary evaluator must never receive. -/
inductive LogicalOperator where
  | and
  | or
  | eqv
  | neqv
  | not
deriving DecidableEq, Repr

/-- Outcome of folding a LogicalOperation node: a constant, the node
returned unevaluated, or the fatal internal-consistency abort (`DIE`). -/
inductive LogicalFoldOutcome where
  | folded (value : Bool)
  | unevaluated
  | fatalAbort (msg : String)
deriving DecidableEq, Repr

/-- The binary LogicalOperation folder (fold-logical.cpp lines 428-461):
when both operands are scalar constants, evaluate the truth table for the
binary connectives; the unary Not operator hits `DIE("not a binary
operator")`; non-constant operands leave the node unevaluated. -/
def FoldLogicalOperation (op : LogicalOperator) (x y : Option Bool) :
    LogicalFoldOutcome :=
  match x, y with
  | some a, some b =>
      match op with
      | .and => .folded (a && b)
      | .or => .folded (a || b)
      | .eqv => .folded (a == b)
      | .neqv => .folded (a != b)
      | .not => .fatalAbort "not a binary operator"
  | _, _ => .unevaluated

/-! ## The Intrinsic Fold Dispatcher (fold-logical.cpp, `FoldIntrinsicFunction`) -/

/-- An actual argument of a library call, as the dispatcher's per-rule
unwrapping sees it: absent, a non-constant expression of an unmodelled
category, a typed integer/real/character/logical expression whose value is
present exactly when it is a compile-time constant, a BOZ literal, or a
null-pointer literal. -/
inductive Arg where
  | absent
  | nonConst
  | intExpr (bits : Nat) (vals : Option (List Nat))
  | boz (v : Nat)
  | realExpr (maxFinite : ℚ) (vals : Option (List FPValue))
  | charExpr (val : Option String)
  | logicalExpr (vals : Option (List Bool))
  | nullPtr
deriving DecidableEq, Repr

/-- Results of the external queries the dispatcher consults: static type
identity (ExtendsTypeOf / SameTypeAs), designator contiguity, the dot-product
reduction folder, the is-normal IEEE classification primitive, and the
constant extents of the folded OUT_OF_RANGE source (`GetConstantExtents`).
All are defined outside fold-logical.cpp. -/
structure Externals where
  extendsTypeOf : Option Bool
  sameTypeAs : Option Bool
  isContiguous : Option Bool
  dotProduct : Option Bool
  isNormal : FPValue → Bool
  constantExtents : Option (List Nat)

/-- Argument access (`args[n]`): an index beyond the bound list is an absent
argument. -/
def argN (args : List Arg) (n : Nat) : Arg := args.getD n .absent

/-- Outcome of one dispatcher rule: a folded constant logical array, a node
rewritten into a different (non-constant) expression, or the call returned
unevaluated. -/
inductive DispatchOutcome where
  | folded (vals : List Bool)
  | rewritten
  | unevaluated
deriving DecidableEq, Repr

/-- Zero-extension of a constant's bit patterns into the 128-bit LargestInt
(fold-logical.cpp lines 16-24, `ZeroExtend` via `ConvertUnsigned`): the
unsigned value of each element is preserved. -/
def ZeroExtend (bits : Nat) (vals : List Nat) : List Nat :=
  vals.map (fun v => v % 2 ^ bits)

/-- Extraction of one BGE/BGT/BLE/BLT operand (fold-logical.cpp lines
78-92): a BOZ literal is already a LargestInt scalar; an integer constant is
zero-extended; anything else is not foldable. -/
def BitCompareArg : Arg → Option (List Nat)
  | .boz v => some [v % 2 ^ 128]
  | .intExpr bits (some vals) => some (ZeroExtend bits vals)
  | _ => none

/-- The BGE/BGT/BLE/BLT rule (fold-logical.cpp lines 70-120): fold
elementwise with the given unsigned comparison when both operands are
constant, else return the call unevaluated. -/
def FoldBitCompare (cmp : Nat → Nat → Bool) (args : List Arg) : DispatchOutcome :=
  match BitCompareArg (argN args 0), BitCompareArg (argN args 1) with
  | some xs, some ys => .folded (List.zipWith cmp xs ys)
  | _, _ => .unevaluated

/-- The reduction rule shared by ALL, ANY and PARITY (fold-logical.cpp lines
27-40). Modelled from the spec: `ProcessReductionArgs` and `DoReduction`
(fold-reduction.h, external) require the array argument to be a constant and
the DIM argument, if present, to be a valid in-range constant (1 for the
rank-1 constants modelled here), else the call is returned unevaluated; the
reduction combines every element with the identity. -/
def FoldAllAnyParity (op : Bool → Bool → Bool) (identity : Bool)
    (args : List Arg) : DispatchOutcome :=
  match argN args 0 with
  | .logicalExpr (some vals) =>
      match argN args 1 with
      | .absent => .folded [vals.foldl op identity]
      | .intExpr bits (some [d]) =>
          if toSigned bits d = 1 then .folded [vals.foldl op identity] else .unevaluated
      | _ => .unevaluated
  | _ => .unevaluated

/-- The ASSOCIATED rule (fold-logical.cpp lines 58-69): folds to false when
the first argument is a null-pointer literal and the second is absent or a
null-pointer literal; otherwise the call is returned unevaluated. -/
def FoldAssociated (args : List Arg) : DispatchOutcome :=
  match argN args 0 with
  | .nullPtr =>
      match argN args 1 with
      | .absent => .folded [false]
      | .nullPtr => .folded [false]
      | _ => .unevaluated
  | _ => .unevaluated

/-- Modelled from the spec: the bit-test primitive `Scalar<Integer>::BTEST`
(external, integer.h) yields a defined, unspecified-by-the-language boolean
for any position; out of [0, bits) the stored pattern has no such bit and the
primitive yields false. -/
def BTESTPrim (bits : Nat) (v : Nat) (pos : ℤ) : Bool :=
  if pos < 0 then false else Nat.testBit (v % 2 ^ bits) pos.toNat

/-- Diagnostic text of the out-of-range BTEST position message. -/
def btestOutOfRangeMessage : String := "POS out of range for BTEST"

/-- The BTEST rule (fold-logical.cpp lines 121-140): when both operands are
constant, fold elementwise; a position outside [0, bit-width) appends a
diagnostic to the context's message sink yet the element is still computed
by the primitive; a non-constant operand leaves the call unevaluated. -/
def FoldBtest (args : List Arg) : DispatchOutcome × List String :=
  match argN args 0, argN args 1 with
  | .intExpr bits (some xs), .intExpr posBits (some ps) =>
      let pairs := List.zipWith (fun x p => (x, toSigned posBits p)) xs ps
      let msgs := (pairs.filter (fun xp => decide (xp.2 < 0 ∨ (bits : ℤ) ≤ xp.2))).map
          (fun _ => btestOutOfRangeMessage)
      (.folded (pairs.map (fun xp => BTESTPrim bits xp.1 xp.2)), msgs)
  | _, _ => (.unevaluated, [])

/-- The ISNAN / IEEE_IS_NAN rule (fold-logical.cpp lines 155-165): fold the
NaN classification when the operand is an actually-constant real. -/
def FoldIsNan (args : List Arg) : DispatchOutcome :=
  match argN args 0 with
  | .realExpr _ (some vals) => .folded (vals.map FPValue.IsNotANumber)
  | _ => .unevaluated

/-- The IEEE_IS_NEGATIVE rule (fold-logical.cpp lines 166-175). -/
def FoldIsNegative (args : List Arg) : DispatchOutcome :=
  match argN args 0 with
  | .realExpr _ (some vals) => .folded (vals.map FPValue.IsNegative)
  | _ => .unevaluated

/-- The IEEE_IS_NORMAL rule (fold-logical.cpp lines 176-185); the
classification primitive itself is external (`Scalar<Real>::IsNormal`). -/
def FoldIsNormal (args : List Arg) (ext : Externals) : DispatchOutcome :=
  match argN args 0 with
  | .realExpr _ (some vals) => .folded (vals.map ext.isNormal)
  | _ => .unevaluated

/-- The IS_CONTIGUOUS rule (fold-logical.cpp lines 186-197): folds when the
external contiguity analysis decides. -/
def FoldIsContiguous (args : List Arg) (ext : Externals) : DispatchOutcome :=
  match argN args 0 with
  | .absent => .unevaluated
  | _ =>
      match ext.isContiguous with
      | some b => .folded [b]
      | none => .unevaluated

/-- Modelled from the spec: the runtime's reserved end-of-file status code
(`FORTRAN_RUNTIME_IOSTAT_END`, magic-numbers.h, external). -/
def FortranRuntimeIostatEnd : ℤ := -1

/-- Modelled from the spec: the runtime's reserved end-of-record status code
(`FORTRAN_RUNTIME_IOSTAT_EOR`, magic-numbers.h, external). -/
def FortranRuntimeIostatEor : ℤ := -2

/-- The IS_IOSTAT_END / IS_IOSTAT_EOR rule (fold-logical.cpp lines 198-215):
compare a constant integer operand against the runtime's sentinel. -/
def FoldIsIostat (sentinel : ℤ) (args : List Arg) : DispatchOutcome :=
  match argN args 0 with
  | .intExpr bits (some vals) => .folded (vals.map (fun v => decide (toSigned bits v = sentinel)))
  | _ => .unevaluated

/-- Lexicographic character comparison over the collating sequence (the
external `Compare` on character constants), as a Relation. -/
def CharCompareRelation (a b : String) : Relation :=
  if a < b then .less else if b < a then .greater else .equal

/-- The LGE/LGT/LLE/LLT rule (fold-logical.cpp lines 216-229): rewrite into
an ASCII character relational and re-fold; constant operands fold to the
comparison's value, non-constant character operands yield a rewritten
relational node, and non-character operands leave the call unevaluated. -/
def FoldCharCompare (op : RelationalOperator) (args : List Arg) : DispatchOutcome :=
  match argN args 0, argN args 1 with
  | .charExpr (some a), .charExpr (some b) =>
      .folded [Satisfies op (CharCompareRelation a b)]
  | .charExpr _, .charExpr _ => .rewritten
  | _, _ => .unevaluated

/-- The LOGICAL kind-conversion rule (fold-logical.cpp lines 230-233):
re-fold the operand converted to the result kind; conversion preserves truth
values, so a constant operand folds to the same values. -/
def FoldLogicalConvert (args : List Arg) : DispatchOutcome :=
  match argN args 0 with
  | .logicalExpr (some vals) => .folded vals
  | .logicalExpr none => .rewritten
  | _ => .unevaluated

/-- Mapping of the folded OUT_OF_RANGE first argument (fold-logical.cpp
lines 235-239: fold, then require `IsActuallyConstant`). -/
def SourceOf : Arg → SourceArg
  | .intExpr bits (some vals) => .intConst bits vals
  | .realExpr _ (some vals) => .realConst vals
  | .charExpr (some _) => .otherConst
  | .logicalExpr (some _) => .otherConst
  | .boz _ => .otherConst
  | _ => .nonConstant

/-- Mapping of the OUT_OF_RANGE mold argument: only its category and kind
are consulted (fold-logical.cpp lines 241, 277-278). -/
def MoldOf : Arg → MoldArg
  | .realExpr maxFinite _ => .realMold maxFinite
  | .intExpr bits _ => .intMold bits
  | _ => .otherMold

/-- Mapping of the optional OUT_OF_RANGE ROUND argument (fold-logical.cpp
lines 294-298, 300-313): absent or non-logical counts as absent; a logical
scalar constant supplies its truth value; a present non-constant logical is
the withholding case. -/
def RoundOf : Arg → RoundArg
  | .logicalExpr (some vals) => .constant (vals.headD false)
  | .logicalExpr none => .nonConstant
  | _ => .absent

/-- The OUT_OF_RANGE rule as invoked from the dispatcher (fold-logical.cpp
lines 234-342). -/
def FoldOutOfRangeCall (args : List Arg) (ext : Externals) : DispatchOutcome :=
  match OutOfRange (SourceOf (argN args 0)) (MoldOf (argN args 1))
      (RoundOf (argN args 2)) ext.constantExtents with
  | .folded vals _ => .folded vals
  | .unevaluated => .unevaluated

/-- The type-identity rules EXTENDS_TYPE_OF and SAME_TYPE_AS
(fold-logical.cpp lines 143-154, 346-357): both arguments must be present;
the external type query decides, ignoring type parameters. -/
def FoldTypeQuery (query : Option Bool) (args : List Arg) : DispatchOutcome :=
  match argN args 0, argN args 1 with
  | .absent, _ => .unevaluated
  | _, .absent => .unevaluated
  | _, _ =>
      match query with
      | some b => .folded [b]
      | none => .unevaluated

/-- The DOT_PRODUCT rule (fold-logical.cpp lines 141-142): delegates to the
external `FoldDotProduct` (fold-reduction.h), which returns a folded
constant or the call unevaluated. -/
def FoldDotProductCall (ext : Externals) : DispatchOutcome :=
  match ext.dotProduct with
  | some b => .folded [b]
  | none => .unevaluated

/-- Every function name the dispatcher's rule chain handles, in source
order (fold-logical.cpp lines 52-369). -/
def HandledNames : List String :=
  ["all", "any", "associated", "bge", "bgt", "ble", "blt", "btest",
   "dot_product", "extends_type_of", "isnan", "__builtin_ieee_is_nan",
   "__builtin_ieee_is_negative", "__builtin_ieee_is_normal", "is_contiguous",
   "is_iostat_end", "is_iostat_eor", "lge", "lgt", "lle", "llt", "logical",
   "out_of_range", "parity", "same_type_as",
   "__builtin_ieee_support_datatype", "__builtin_ieee_support_denormal",
   "__builtin_ieee_support_divide", "__builtin_ieee_support_inf",
   "__builtin_ieee_support_io", "__builtin_ieee_support_nan",
   "__builtin_ieee_support_sqrt", "__builtin_ieee_support_standard",
   "__builtin_ieee_support_subnormal",
   "__builtin_ieee_support_underflow_control"]

/-- The Intrinsic Fold Dispatcher (fold-logical.cpp lines 42-372): the
name-keyed chain of folding rules, each paired with the diagnostics it
appends to the context's message sink; a name matching no rule falls through
to `return Expr<T>{std::move(funcRef)}` (line 371), the call unevaluated. -/
def FoldIntrinsicFunction (name : String) (args : List Arg) (ext : Externals) :
    DispatchOutcome × List String :=
  if name = "all" then (FoldAllAnyParity (fun a b => a && b) true args, [])
  else if name = "any" then (FoldAllAnyParity (fun a b => a || b) false args, [])
  else if name = "associated" then (FoldAssociated args, [])
  else if name = "bge" then (FoldBitCompare (fun x y => decide (y ≤ x)) args, [])
  else if name = "bgt" then (FoldBitCompare (fun x y => decide (y < x)) args, [])
  else if name = "ble" then (FoldBitCompare (fun x y => decide (x ≤ y)) args, [])
  else if name = "blt" then (FoldBitCompare (fun x y => decide (x < y)) args, [])
  else if name = "btest" then FoldBtest args
  else if name = "dot_product" then (FoldDotProductCall ext, [])
  else if name = "extends_type_of" then (FoldTypeQuery ext.extendsTypeOf args, [])
  else if name = "isnan" ∨ name = "__builtin_ieee_is_nan" then (FoldIsNan args, [])
  else if name = "__builtin_ieee_is_negative" then (FoldIsNegative args, [])
  else if name = "__builtin_ieee_is_normal" then (FoldIsNormal args ext, [])
  else if name = "is_contiguous" then (FoldIsContiguous args ext, [])
  else if name = "is_iostat_end" then (FoldIsIostat FortranRuntimeIostatEnd args, [])
  else if name = "is_iostat_eor" then (FoldIsIostat FortranRuntimeIostatEor args, [])
  else if name = "lge" then (FoldCharCompare .ge args, [])
  else if name = "lgt" then (FoldCharCompare .gt args, [])
  else if name = "lle" then (FoldCharCompare .le args, [])
  else if name = "llt" then (FoldCharCompare .lt args, [])
  else if name = "logical" then (FoldLogicalConvert args, [])
  else if name = "out_of_range" then (FoldOutOfRangeCall args ext, [])
  else if name = "parity" then (FoldAllAnyParity (fun a b => a != b) false args, [])
  else if name = "same_type_as" then (FoldTypeQuery ext.sameTypeAs args, [])
  else if name = "__builtin_ieee_support_datatype" ∨
      name = "__builtin_ieee_support_denormal" ∨
      name = "__builtin_ieee_support_divide" ∨
      name = "__builtin_ieee_support_inf" ∨
      name = "__builtin_ieee_support_io" ∨
      name = "__builtin_ieee_support_nan" ∨
      name = "__builtin_ieee_support_sqrt" ∨
      name = "__builtin_ieee_support_standard" ∨
      name = "__builtin_ieee_support_subnormal" ∨
      name = "__builtin_ieee_support_underflow_control" then (.folded [true], [])
  else (.unevaluated, [])

/-- A concrete Externals value for evaluation: every external query
undecided, the is-normal primitive constantly false. -/
def DefaultExternals : Externals :=
  ⟨none, none, none, none, fun _ => false, none⟩

/-! ## Claims -/

/-- C1: For OUT_OF_RANGE with a real constant source and an integer mold: an
absent or constant-false ROUND argument converts each element with
truncation toward zero and a constant-true ROUND with
round-ties-away-from-zero; a present but non-constant ROUND returns the call
unevaluated; every non-finite source element folds to true, and a finite
element folds to the rounding conversion's overflow flag. -/
theorem C1_out_of_range_real_to_int (bits : Nat) (e : List Nat) (vals : List FPValue) :
    OutOfRange (.realConst vals) (.intMold bits) .absent (some e)
      = .folded (vals.map (OutOfRangeElementRealToInt .toZero bits)) e
  ∧ OutOfRange (.realConst vals) (.intMold bits) (.constant false) (some e)
      = .folded (vals.map (OutOfRangeElementRealToInt .toZero bits)) e
  ∧ OutOfRange (.realConst vals) (.intMold bits) (.constant true) (some e)
      = .folded (vals.map (OutOfRangeElementRealToInt .tiesAwayFromZero bits)) e
  ∧ OutOfRange (.realConst vals) (.intMold bits) .nonConstant (some e) = .unevaluated
  ∧ (∀ x : FPValue, x.IsFinite = false → ∀ mode,
        OutOfRangeElementRealToInt mode bits x = true)
  ∧ (∀ x : FPValue, x.IsFinite = true → ∀ mode,
        OutOfRangeElementRealToInt mode bits x = ToIntegerOverflow mode bits x) := by
  refine ⟨rfl, rfl, rfl, rfl, ?_, ?_⟩
  · intro x h mode
    simp [OutOfRangeElementRealToInt, h]
  · intro x h mode
    simp [OutOfRangeElementRealToInt, h]

/-- Witness for C1 at a concrete input: a NaN element with an 8-bit integer
mold folds to true under truncation. -/
theorem C1_out_of_range_real_to_int_witness :
    FPValue.nan.IsFinite = false
  ∧ OutOfRangeElementRealToInt .toZero 8 .nan = true
  ∧ OutOfRange (.realConst [.nan]) (.intMold 8) .absent (some [])
      = .folded [OutOfRangeElementRealToInt .toZero 8 .nan] [] := by
  have h := C1_out_of_range_real_to_int 8 [] [.nan]
  exact ⟨rfl, h.2.2.2.2.1 .nan rfl .toZero, h.1⟩

/-- C2: For OUT_OF_RANGE with a real constant source and a real mold, each
element folds to (finite AND the conversion's overflow flag); a non-finite
element therefore folds to false, and a finite one to the overflow flag. -/
theorem C2_out_of_range_real_to_real (maxF : ℚ) (e : List Nat)
    (vals : List FPValue) (r : RoundArg) :
    OutOfRange (.realConst vals) (.realMold maxF) r (some e)
      = .folded (vals.map (OutOfRangeElementRealToReal maxF)) e
  ∧ (∀ x : FPValue, x.IsFinite = false → OutOfRangeElementRealToReal maxF x = false)
  ∧ (∀ x : FPValue, x.IsFinite = true →
        OutOfRangeElementRealToReal maxF x = ConvertRealOverflow maxF x) := by
  refine ⟨rfl, ?_, ?_⟩
  · intro x h
    simp [OutOfRangeElementRealToReal, h]
  · intro x h
    simp [OutOfRangeElementRealToReal, h]

/-- Witness for C2 at a concrete input: a NaN element with a real mold folds
to false. -/
theorem C2_out_of_range_real_to_real_witness :
    FPValue.nan.IsFinite = false
  ∧ OutOfRangeElementRealToReal 1 .nan = false
  ∧ OutOfRange (.realConst [.nan]) (.realMold 1) .absent (some [])
      = .folded [OutOfRangeElementRealToReal 1 .nan] [] := by
  have h := C2_out_of_range_real_to_real 1 [] [.nan] .absent
  exact ⟨rfl, h.2.1 .nan rfl, h.1⟩

/-- C3: Folding a comparison of two scalar real constants with a NaN
operand yields false for EQ, true for NE, and false for LT, LE, GT, GE. -/
theorem C3_relational_nan (x y : FPValue) (h : x = .nan ∨ y = .nan) :
    FoldRelationalReal .eq (some x) (some y) = .folded false
  ∧ FoldRelationalReal .ne (some x) (some y) = .folded true
  ∧ FoldRelationalReal .lt (some x) (some y) = .folded false
  ∧ FoldRelationalReal .le (some x) (some y) = .folded false
  ∧ FoldRelationalReal .gt (some x) (some y) = .folded false
  ∧ FoldRelationalReal .ge (some x) (some y) = .folded false := by
  have hc : x.Compare y = .unordered := by
    rcases h with h | h
    · subst h; cases y <;> rfl
    · subst h; cases x <;> rfl
  simp [FoldRelationalReal, hc, Satisfies]

/-- Witness for C3 at a concrete input: NaN compared with NaN. -/
theorem C3_relational_nan_witness :
    FoldRelationalReal .eq (some .nan) (some .nan) = .folded false
  ∧ FoldRelationalReal .ne (some .nan) (some .nan) = .folded true :=
  ⟨(C3_relational_nan .nan .nan (Or.inl rfl)).1,
   (C3_relational_nan .nan .nan (Or.inl rfl)).2.1⟩

/-- C4: ALL, ANY and PARITY over a constant logical array fold to the
combination of every element with the reduction identity (AND with true, OR
with false, NEQV with false); the empty array folds exactly to the
identity. -/
theorem C4_all_any_parity (ext : Externals) (vals : List Bool) :
    FoldIntrinsicFunction "all" [.logicalExpr (some vals)] ext
      = (.folded [vals.foldl (fun a b => a && b) true], [])
  ∧ FoldIntrinsicFunction "any" [.logicalExpr (some vals)] ext
      = (.folded [vals.foldl (fun a b => a || b) false], [])
  ∧ FoldIntrinsicFunction "parity" [.logicalExpr (some vals)] ext
      = (.folded [vals.foldl (fun a b => a != b) false], [])
  ∧ FoldIntrinsicFunction "all" [.logicalExpr (some [])] ext = (.folded [true], [])
  ∧ FoldIntrinsicFunction "any" [.logicalExpr (some [])] ext = (.folded [false], [])
  ∧ FoldIntrinsicFunction "parity" [.logicalExpr (some [])] ext = (.folded [false], []) :=
  ⟨rfl, rfl, rfl, rfl, rfl, rfl⟩

/-- C5: BGE/BGT/BLE/BLT with two constant integer operands of possibly
different widths zero-extend each operand and compare the patterns as
unsigned integers; 8-bit 0xFF compares greater than 0x01; a non-constant
operand returns the call unevaluated. -/
theorem C5_bit_compare (ext : Externals) (w1 w2 : Nat) (xs ys : List Nat) :
    FoldIntrinsicFunction "bge" [.intExpr w1 (some xs), .intExpr w2 (some ys)] ext
      = (.folded (List.zipWith (fun x y => decide (y ≤ x))
          (ZeroExtend w1 xs) (ZeroExtend w2 ys)), [])
  ∧ FoldIntrinsicFunction "bgt" [.intExpr w1 (some xs), .intExpr w2 (some ys)] ext
      = (.folded (List.zipWith (fun x y => decide (y < x))
          (ZeroExtend w1 xs) (ZeroExtend w2 ys)), [])
  ∧ FoldIntrinsicFunction "ble" [.intExpr w1 (some xs), .intExpr w2 (some ys)] ext
      = (.folded (List.zipWith (fun x y => decide (x ≤ y))
          (ZeroExtend w1 xs) (ZeroExtend w2 ys)), [])
  ∧ FoldIntrinsicFunction "blt" [.intExpr w1 (some xs), .intExpr w2 (some ys)] ext
      = (.folded (List.zipWith (fun x y => decide (x < y))
          (ZeroExtend w1 xs) (ZeroExtend w2 ys)), [])
  ∧ FoldIntrinsicFunction "bgt" [.intExpr 8 (some [255]), .intExpr 32 (some [1])] ext
      = (.folded [true], [])
  ∧ FoldIntrinsicFunction "blt" [.intExpr 8 (some [255]), .intExpr 32 (some [1])] ext
      = (.folded [false], [])
  ∧ FoldIntrinsicFunction "bge" [.intExpr w1 none, .intExpr w2 (some ys)] ext
      = (.unevaluated, [])
  ∧ FoldIntrinsicFunction "bge" [.intExpr w1 (some xs), .nonConst] ext
      = (.unevaluated, []) :=
  ⟨rfl, rfl, rfl, rfl, rfl, rfl, rfl, rfl⟩

/-- C6: BTEST with constant operands and a bit position outside
[0, bit-width) appends a diagnostic to the folding context's sink, yet the
fold still completes with the boolean the underlying primitive returns. -/
theorem C6_btest_diagnostic (ext : Externals) (bits posBits x p : Nat)
    (h : toSigned posBits p < 0 ∨ (bits : ℤ) ≤ toSigned posBits p) :
    FoldIntrinsicFunction "btest"
        [.intExpr bits (some [x]), .intExpr posBits (some [p])] ext
      = (.folded [BTESTPrim bits x (toSigned posBits p)], [btestOutOfRangeMessage]) := by
  have hp : (decide (toSigned posBits p < 0) || decide ((bits : ℤ) ≤ toSigned posBits p)) = true := by
    simpa using decide_eq_true h
  show FoldBtest [.intExpr bits (some [x]), .intExpr posBits (some [p])] = _
  simp [FoldBtest, argN, hp]

/-- Witness for C6 at a concrete input: testing bit 35 of a 32-bit pattern. -/
theorem C6_btest_diagnostic_witness :
    ((32 : ℤ) ≤ toSigned 8 35)
  ∧ FoldIntrinsicFunction "btest"
        [.intExpr 32 (some [5]), .intExpr 8 (some [35])] DefaultExternals
      = (.folded [BTESTPrim 32 5 (toSigned 8 35)], [btestOutOfRangeMessage]) :=
  ⟨by decide, C6_btest_diagnostic DefaultExternals 32 8 5 35 (Or.inr (by decide))⟩

/-- C7: A name matching no rule of the dispatcher's chain is returned
unevaluated with no diagnostics; and a rule of the chain whose fold
precondition fails — here, any of the rules requiring a constant first
argument, given a non-constant one — likewise returns the call
unevaluated. -/
theorem C7_dispatcher_fallthrough (name : String) (args : List Arg) (ext : Externals) :
    (name ∉ HandledNames → FoldIntrinsicFunction name args ext = (.unevaluated, []))
  ∧ (argN args 0 = .nonConst →
        FoldIntrinsicFunction "all" args ext = (.unevaluated, [])
      ∧ FoldIntrinsicFunction "any" args ext = (.unevaluated, [])
      ∧ FoldIntrinsicFunction "parity" args ext = (.unevaluated, [])
      ∧ FoldIntrinsicFunction "associated" args ext = (.unevaluated, [])
      ∧ FoldIntrinsicFunction "bge" args ext = (.unevaluated, [])
      ∧ FoldIntrinsicFunction "bgt" args ext = (.unevaluated, [])
      ∧ FoldIntrinsicFunction "ble" args ext = (.unevaluated, [])
      ∧ FoldIntrinsicFunction "blt" args ext = (.unevaluated, [])
      ∧ FoldIntrinsicFunction "btest" args ext = (.unevaluated, [])
      ∧ FoldIntrinsicFunction "isnan" args ext = (.unevaluated, [])
      ∧ FoldIntrinsicFunction "__builtin_ieee_is_negative" args ext = (.unevaluated, [])
      ∧ FoldIntrinsicFunction "is_iostat_end" args ext = (.unevaluated, [])
      ∧ FoldIntrinsicFunction "is_iostat_eor" args ext = (.unevaluated, [])
      ∧ FoldIntrinsicFunction "lge" args ext = (.unevaluated, [])
      ∧ FoldIntrinsicFunction "logical" args ext = (.unevaluated, [])
      ∧ FoldIntrinsicFunction "out_of_range" args ext = (.unevaluated, [])) := by
  constructor
  · intro h
    simp only [HandledNames, List.mem_cons, List.not_mem_nil, or_false] at h
    push_neg at h
    obtain ⟨h1, h2, h3, h4, h5, h6, h7, h8, h9, h10, h11, h12, h13, h14, h15, h16,
      h17, h18, h19, h20, h21, h22, h23, h24, h25, h26, h27, h28, h29, h30, h31,
      h32, h33, h34, h35⟩ := h
    simp [FoldIntrinsicFunction, h1, h2, h3, h4, h5, h6, h7, h8, h9, h10, h11, h12,
      h13, h14, h15, h16, h17, h18, h19, h20, h21, h22, h23, h24, h25, h26, h27,
      h28, h29, h30, h31, h32, h33, h34, h35]
  · intro h
    refine ⟨?_, ?_, ?_, ?_, ?_, ?_, ?_, ?_, ?_, ?_, ?_, ?_, ?_, ?_, ?_, ?_⟩ <;>
      simp [FoldIntrinsicFunction, FoldAllAnyParity, FoldAssociated, FoldBitCompare,
        BitCompareArg, FoldBtest, FoldIsNan, FoldIsNegative, FoldIsIostat,
        FoldCharCompare, FoldLogicalConvert, FoldOutOfRangeCall, SourceOf,
        OutOfRange, h]

/-- Witness for C7 at a concrete input: an unknown name, and a rule with a
non-constant argument. -/
theorem C7_dispatcher_fallthrough_witness :
    FoldIntrinsicFunction "frobnicate" [.nonConst] DefaultExternals = (.unevaluated, [])
  ∧ FoldIntrinsicFunction "all" [.nonConst] DefaultExternals = (.unevaluated, []) := by
  have h := C7_dispatcher_fallthrough "frobnicate" [.nonConst] DefaultExternals
  have h2 := C7_dispatcher_fallthrough "all" [.nonConst] DefaultExternals
  exact ⟨h.1 (by decide), (h2.2 rfl).1⟩

/-- C8: The binary LogicalOperation evaluator maps the unary Not operator to
the fatal internal abort, while each binary connective over two scalar
constants folds to its truth table: And to x∧y, Or to x∨y, Eqv to x=y, Neqv
to x≠y — so the abort branch is unreachable for binary operators. -/
theorem C8_logical_operation_not_abort (x y : Bool) :
    FoldLogicalOperation .not (some x) (some y) = .fatalAbort "not a binary operator"
  ∧ FoldLogicalOperation .and (some x) (some y) = .folded (x && y)
  ∧ FoldLogicalOperation .or (some x) (some y) = .folded (x || y)
  ∧ FoldLogicalOperation .eqv (some x) (some y) = .folded (x == y)
  ∧ FoldLogicalOperation .neqv (some x) (some y) = .folded (x != y) :=
  ⟨rfl, rfl, rfl, rfl, rfl⟩

/-- C9: With a real mold, OUT_OF_RANGE ignores the ROUND argument entirely —
folding is unchanged whether ROUND is absent, constant, or non-constant; an
integer source with an integer mold also folds despite a non-constant ROUND;
only the real-source→integer-mold path withholds folding on a non-constant
ROUND. -/
theorem C9_round_ignored_for_real_mold (s : SourceArg) (maxF : ℚ)
    (r r' : RoundArg) (ext : Option (List Nat)) :
    OutOfRange s (.realMold maxF) r ext = OutOfRange s (.realMold maxF) r' ext
  ∧ (∀ tBits sBits xs e,
        OutOfRange (.intConst sBits xs) (.intMold tBits) .nonConstant (some e)
          = .folded (xs.map (ConvertSignedOverflow tBits sBits)) e)
  ∧ (∀ tBits xs e,
        OutOfRange (.realConst xs) (.intMold tBits) .nonConstant (some e)
          = .unevaluated) := by
  refine ⟨?_, fun _ _ _ _ => rfl, fun _ _ _ => rfl⟩
  cases s <;> rfl

/-- C10: Even with every element result computed, OUT_OF_RANGE emits a
constant only when the constant extents of the folded source are
determinable; without extents the call is returned unevaluated. -/
theorem C10_extents_required (s : SourceArg) (m : MoldArg) (r : RoundArg)
    (vals : List Bool) (h : OutOfRangeValues s m r = some vals) :
    OutOfRange s m r none = .unevaluated
  ∧ ∀ e, OutOfRange s m r (some e) = .folded vals e := by
  cases s with
  | nonConstant =>
      exfalso
      cases m <;> simp [OutOfRangeValues] at h
  | intConst b xs =>
      exact ⟨by simp [OutOfRange, h], fun e => by simp [OutOfRange, h]⟩
  | realConst xs =>
      exact ⟨by simp [OutOfRange, h], fun e => by simp [OutOfRange, h]⟩
  | otherConst =>
      exact ⟨by simp [OutOfRange, h], fun e => by simp [OutOfRange, h]⟩

/-- Witness for C10 at a concrete input: computed element results but no
extents. -/
theorem C10_extents_required_witness :
    OutOfRangeValues (.realConst []) (.intMold 8) .absent = some []
  ∧ OutOfRange (.realConst []) (.intMold 8) .absent none = .unevaluated :=
  ⟨rfl, (C10_extents_required (.realConst []) (.intMold 8) .absent [] rfl).1⟩

end FoldLogical
